import Mathlib

/-!
Verification of the gateway session protocol of the CardMaster repository
(file src/discord/src/gateway.rs), as a shallow embedding in Lean 4.

JSON values are modelled by an inductive type whose object case keeps the
field list, so that structural omission of a field is observable.  The
serde-derived encoder and decoder of the wire envelope (struct
GatewayMessage), the session loop (GatewayState::run), connect and close
are translated into executable Lean functions.  Time instants are natural
numbers of milliseconds; the effects the loop performs on the transport
and on the downstream channel are recorded as explicit action lists.
-/

namespace Gateway

/-- JSON values, with objects as ordered field lists so that the presence
or absence of a field is structural. -/
inductive Json where
  | null : Json
  | num (n : Nat) : Json
  | str (s : String) : Json
  | obj (fields : List (String × Json)) : Json

/-- Field lookup in a JSON object field list, first occurrence wins
(the behaviour of the serde map-based deserializer on our shapes). -/
def lookupField (key : String) : List (String × Json) → Option Json
  | [] => none
  | (k, v) :: rest => if k = key then some v else lookupField key rest

/-- Field lookup on a JSON value: only objects have fields. -/
def Json.lookup (j : Json) (key : String) : Option Json :=
  match j with
  | .obj fields => lookupField key fields
  | _ => none

/-- Gateway opcodes, from enum GatewayOpcode in gateway.rs. -/
inductive GatewayOpcode where
  | dispatch
  | heartbeat
  | identify
  | resume
  | reconnect
  | invalidSession
  | hello
  | heartbeatACK
deriving DecidableEq, Repr

/-- The numeric wire value of each opcode (serde-repr representation). -/
def GatewayOpcode.code : GatewayOpcode → Nat
  | .dispatch => 0
  | .heartbeat => 1
  | .identify => 2
  | .resume => 6
  | .reconnect => 7
  | .invalidSession => 9
  | .hello => 10
  | .heartbeatACK => 11

/-- Decoding an opcode from a JSON value (serde-repr deserializer:
only the listed numeric values are accepted). -/
def decodeOpcode : Json → Option GatewayOpcode
  | .num 0 => some .dispatch
  | .num 1 => some .heartbeat
  | .num 2 => some .identify
  | .num 6 => some .resume
  | .num 7 => some .reconnect
  | .num 9 => some .invalidSession
  | .num 10 => some .hello
  | .num 11 => some .heartbeatACK
  | _ => none

/-- The wire envelope, struct GatewayMessage of gateway.rs: opcode, payload,
optional sequence and optional event name. -/
structure GatewayMessage (T : Type) where
  op : GatewayOpcode
  d : T
  s : Option Nat
  t : Option String

/-- Serialization of the optional sequence field: skipped entirely when
absent (serde attribute skip_serializing_if Option is_none). -/
def optNumField (name : String) : Option Nat → List (String × Json)
  | some n => [(name, .num n)]
  | none => []

/-- Serialization of the optional event-name field: skipped entirely when
absent (serde attribute skip_serializing_if Option is_none). -/
def optStrField (name : String) : Option String → List (String × Json)
  | some v => [(name, .str v)]
  | none => []

/-- Encoder of the envelope, following the serde Serialize derive on
GatewayMessage: fields op and d always present, s and t structurally
omitted when absent. -/
def GatewayMessage.encode {T : Type} (encT : T → Json) (m : GatewayMessage T) : Json :=
  .obj (("op", .num m.op.code) :: ("d", encT m.d) :: (optNumField "s" m.s ++ optStrField "t" m.t))

/-- Deserializing an optional number field: a missing field and an
explicit null both give absence, a number gives presence, anything else
is a decode error (serde semantics for an optional integer field). -/
def decodeOptNum : Option Json → Option (Option Nat)
  | none => some none
  | some .null => some none
  | some (.num n) => some (some n)
  | some _ => none

/-- Deserializing an optional string field, with the same conventions. -/
def decodeOptStr : Option Json → Option (Option String)
  | none => some none
  | some .null => some none
  | some (.str v) => some (some v)
  | some _ => none

/-- Decoder of the envelope, following the serde Deserialize derive on
GatewayMessage: op and d are required, s and t optional, unknown fields
ignored. -/
def GatewayMessage.decode {T : Type} (decT : Json → Option T) (j : Json) :
    Option (GatewayMessage T) :=
  match (j.lookup "op").bind decodeOpcode, j.lookup "d",
      decodeOptNum (j.lookup "s"), decodeOptStr (j.lookup "t") with
  | some op, some dj, some sv, some tv =>
      (decT dj).map fun dv => { op := op, d := dv, s := sv, t := tv }
  | _, _, _, _ => none

theorem lookupField_cons_eq (key : String) (v : Json) (rest : List (String × Json)) :
    lookupField key ((key, v) :: rest) = some v := by
  simp [lookupField]

theorem lookupField_cons_ne {k key : String} (h : k ≠ key) (v : Json)
    (rest : List (String × Json)) :
    lookupField key ((k, v) :: rest) = lookupField key rest := by
  simp [lookupField, h]

theorem decodeOpcode_code (op : GatewayOpcode) :
    decodeOpcode (.num op.code) = some op := by
  cases op <;> rfl

theorem lookup_encode_op {T : Type} (encT : T → Json) (m : GatewayMessage T) :
    (m.encode encT).lookup "op" = some (.num m.op.code) := by
  simp [GatewayMessage.encode, Json.lookup, lookupField_cons_eq]

theorem lookup_encode_d {T : Type} (encT : T → Json) (m : GatewayMessage T) :
    (m.encode encT).lookup "d" = some (encT m.d) := by
  have h1 : "op" ≠ "d" := by decide
  simp [GatewayMessage.encode, Json.lookup, lookupField_cons_ne h1, lookupField_cons_eq]

theorem lookup_encode_s {T : Type} (encT : T → Json) (m : GatewayMessage T) :
    (m.encode encT).lookup "s" = m.s.map .num := by
  have h1 : "op" ≠ "s" := by decide
  have h2 : "d" ≠ "s" := by decide
  have h3 : "t" ≠ "s" := by decide
  cases hs : m.s <;> cases ht : m.t <;>
    simp [GatewayMessage.encode, Json.lookup, optNumField, optStrField, hs, ht,
      lookupField_cons_ne h1, lookupField_cons_ne h2, lookupField_cons_ne h3,
      lookupField_cons_eq, lookupField]

theorem lookup_encode_t {T : Type} (encT : T → Json) (m : GatewayMessage T) :
    (m.encode encT).lookup "t" = m.t.map .str := by
  have h1 : "op" ≠ "t" := by decide
  have h2 : "d" ≠ "t" := by decide
  have h3 : "s" ≠ "t" := by decide
  cases hs : m.s <;> cases ht : m.t <;>
    simp [GatewayMessage.encode, Json.lookup, optNumField, optStrField, hs, ht,
      lookupField_cons_ne h1, lookupField_cons_ne h2, lookupField_cons_ne h3,
      lookupField_cons_eq, lookupField]

/-- Decoding inverts encoding for every envelope, whenever payload
decoding inverts payload encoding. -/
theorem GatewayMessage.decode_encode {T : Type} (encT : T → Json) (decT : Json → Option T)
    (h : ∀ x, decT (encT x) = some x) (m : GatewayMessage T) :
    GatewayMessage.decode decT (m.encode encT) = some m := by
  obtain ⟨op, d, s, t⟩ := m
  rw [GatewayMessage.decode, lookup_encode_op, lookup_encode_d, lookup_encode_s,
    lookup_encode_t]
  cases s <;> cases t <;>
    simp [decodeOpcode_code, decodeOptNum, decodeOptStr, h]

/-- Claim C9: encoding an envelope with sequence and event name both
absent produces a wire object in which the fields s and t are structurally
omitted (lookup finds no such field, rather than a null value), and
decoding recovers the envelope with both fields absent; moreover encoding
followed by decoding is the identity on every envelope, in particular one
with both fields present. -/
theorem envelope_codec_roundtrip :
    (∀ (op : GatewayOpcode) (d : Json),
      (GatewayMessage.encode id ⟨op, d, none, none⟩).lookup "s" = none ∧
      (GatewayMessage.encode id ⟨op, d, none, none⟩).lookup "t" = none ∧
      GatewayMessage.decode some (GatewayMessage.encode id ⟨op, d, none, none⟩) =
        some ⟨op, d, none, none⟩) ∧
    (∀ m : GatewayMessage Json,
      GatewayMessage.decode some (m.encode id) = some m) := by
  constructor
  · intro op d
    refine ⟨?_, ?_, ?_⟩
    · simpa using lookup_encode_s id ⟨op, d, none, none⟩
    · simpa using lookup_encode_t id ⟨op, d, none, none⟩
    · exact GatewayMessage.decode_encode id some (fun _ => rfl) _
  · intro m
    exact GatewayMessage.decode_encode id some (fun _ => rfl) m

/-- Payload of the Ready dispatch event (struct Ready in gateway.rs):
the resume URL and the session identifier. -/
structure Ready where
  resume_gateway_url : String
  session_id : String
deriving DecidableEq, Repr

/-- Decoder for the Ready payload (serde Deserialize derive: both string
fields required). -/
def decodeReady (j : Json) : Option Ready :=
  match j.lookup "resume_gateway_url", j.lookup "session_id" with
  | some (.str u), some (.str sid) => some ⟨u, sid⟩
  | _, _ => none

/-- Domain events (enum GatewayEvent in gateway.rs).  The payload of
InteractionCreate (AnyInteraction) is opaque to the gateway core and is
kept as a JSON value. -/
inductive GatewayEvent where
  | ready (r : Ready)
  | interactionCreate (payload : Json)

/-- Decoder for the domain event, following the serde internally tagged
representation with tag field t and content field d, variant names in
screaming snake case.  The decoder for the opaque AnyInteraction payload
is a parameter decInt, since that type lives outside the gateway core. -/
def decodeEvent (decInt : Json → Option Json) (j : Json) : Option GatewayEvent :=
  match j.lookup "t" with
  | some (.str "READY") =>
      match j.lookup "d" with
      | some dj => (decodeReady dj).map .ready
      | none => none
  | some (.str "INTERACTION_CREATE") =>
      match j.lookup "d" with
      | some dj => (decInt dj).map .interactionCreate
      | none => none
  | _ => none

/-- Payload of the Hello envelope (struct Hello in gateway.rs). -/
structure Hello where
  heartbeat_interval : Nat
deriving DecidableEq, Repr

/-- Decoder for the Hello payload (serde Deserialize derive). -/
def decodeHello (j : Json) : Option Hello :=
  match j.lookup "heartbeat_interval" with
  | some (.num n) => some ⟨n⟩
  | _ => none

/-- The heartbeat interval timer, as configured by interval_at: the
instant of the first tick and the period, both in milliseconds. -/
structure Interval where
  start : Nat
  period : Nat
deriving DecidableEq, Repr

/-- The state owned by the session loop (struct GatewayState in
gateway.rs).  The transport, the downstream channel and the shutdown
channel are modelled as effects rather than state; the remaining fields
are kept: the timer, the pending heartbeat-ack deadline, the captured
Ready payload, the last seen sequence, and the token. -/
structure GatewayState where
  interval : Interval
  heartbeat_timeout : Option Nat
  ready : Option Ready
  sequence : Option Nat
  token : String

/-- One resolution of the nondeterministic environment for a single loop
iteration: the current instant, whether each fallible effect succeeds,
and the random number drawn for the jittered interval restart. -/
structure Env where
  now : Nat
  wsSendOk : Bool
  chanSendOk : Bool
  closeOk : Bool
  connectOk : Bool
  randOffset : Nat
deriving DecidableEq, Repr

/-- Effects the loop performs, in order, during one iteration: sending a
frame on the transport, performing the transport close handshake, opening
a new transport connection, and forwarding a domain event downstream. -/
inductive Action where
  | wsSend (frame : Json)
  | wsClose
  | wsConnect (url : String)
  | chanSend (ev : GatewayEvent)

/-- The program point at which the loop breaks, named after the source
comment or condition at that break statement. -/
inductive BreakReason where
  | manualClose
  | lostConnection
  | heartbeatSendFailed
  | endOfStream
  | remoteClose
  | receiverGone
  | invalidSession
  | resumeSendFailed
  | noResumeInfo
deriving DecidableEq, Repr

/-- Outcome of one loop iteration: keep looping, break out of the loop at
a given program point, or panic (an uncontrolled failure of the task,
from unwrap or expect). -/
inductive Outcome where
  | next
  | terminated (reason : BreakReason)
  | panicked (msg : String)

/-- Result of one loop iteration: the state afterwards, the effects
performed, and whether the loop continues. -/
structure StepResult where
  state : GatewayState
  actions : List Action
  outcome : Outcome

/-- A websocket message as the loop matches on it: a text frame with its
parsed JSON content, a close frame, or any other frame kind. -/
inductive WsMessage where
  | text (content : Json)
  | close
  | other

/-- The result of reading the next item from the websocket stream:
an item, a read error, or end of stream. -/
inductive WsItem where
  | item (m : WsMessage)
  | fault
  | ended

/-- Which branch of the select fired in one iteration of
GatewayState::run: the shutdown signal, the elapsed heartbeat-ack
deadline, the interval tick, or a read from the transport. -/
inductive LoopInput where
  | die
  | ackElapsed
  | tick
  | frame (item : WsItem)

/-- The JSON payload of an optional number, as serde serializes the d
field of a heartbeat (an absent sequence becomes an explicit null). -/
def optNatJson : Option Nat → Json
  | some n => .num n
  | none => .null

/-- The heartbeat frame sent by GatewayState::heartbeat: opcode
Heartbeat, payload the last seen sequence or null, s and t omitted. -/
def heartbeatMessage (st : GatewayState) : Json :=
  GatewayMessage.encode id ⟨.heartbeat, optNatJson st.sequence, none, none⟩

/-- GatewayState::heartbeat: send the heartbeat frame, then on success
arm the ack deadline at now plus 2000 milliseconds (Duration::from_secs 2
in the source); on a send failure the error propagates before the
deadline is touched, and the caller breaks out of the loop. -/
def GatewayState.heartbeat (st : GatewayState) (env : Env) : StepResult :=
  if env.wsSendOk then
    { state := { st with heartbeat_timeout := some (env.now + 2000) },
      actions := [.wsSend (heartbeatMessage st)],
      outcome := .next }
  else
    { state := st, actions := [], outcome := .terminated .heartbeatSendFailed }

/-- The Resume payload (struct Resume in gateway.rs, serde Serialize
derive). -/
def resumeJson (token session_id : String) (seq : Nat) : Json :=
  .obj [("token", .str token), ("session_id", .str session_id), ("seq", .num seq)]

/-- The Resume frame sent on a Reconnect envelope. -/
def resumeMessage (token : String) (r : Ready) (seq : Nat) : Json :=
  GatewayMessage.encode id ⟨.resume, resumeJson token r.session_id seq, none, none⟩

/-- The version and encoding query suffix appended to every gateway URL. -/
def urlSuffix : String := "/?v=10&encoding=json"

/-- Handling of a received text frame by GatewayState::run.  The frame is
first decoded as a generic envelope with unwrap, so an undecodable frame
panics.  A Dispatch envelope unconditionally stores its sequence, then
the event is decoded from the same text: a Ready event is captured and
not forwarded, any other decoded event is forwarded downstream (a failed
forward means the receiver is gone and breaks the loop), and an
undecodable event is ignored.  A Heartbeat request triggers an immediate
heartbeat.  InvalidSession breaks.  HeartbeatACK clears the ack deadline.
Reconnect resumes when a Ready and a sequence were captured: close the
old transport (expect: panic on failure), connect to the captured resume
URL with the suffix appended (expect: panic on failure), send the Resume
frame (break on failure); without credentials it breaks.  Hello rearms
the interval.  Other opcodes are ignored. -/
def handleText (decInt : Json → Option Json) (env : Env) (st : GatewayState)
    (j : Json) : StepResult :=
  match GatewayMessage.decode some j with
  | none => { state := st, actions := [], outcome := .panicked "invalid gateway message" }
  | some message =>
    match message.op with
    | .dispatch =>
      let st1 := { st with sequence := message.s }
      match decodeEvent decInt j with
      | some (.ready r) =>
          { state := { st1 with ready := some r }, actions := [], outcome := .next }
      | some ev =>
          if env.chanSendOk then
            { state := st1, actions := [.chanSend ev], outcome := .next }
          else
            { state := st1, actions := [], outcome := .terminated .receiverGone }
      | none => { state := st1, actions := [], outcome := .next }
    | .heartbeat => st.heartbeat env
    | .invalidSession =>
        { state := st, actions := [], outcome := .terminated .invalidSession }
    | .heartbeatACK =>
        { state := { st with heartbeat_timeout := none }, actions := [], outcome := .next }
    | .reconnect =>
      match st.ready, st.sequence with
      | some r, some seq =>
        if env.closeOk = false then
          { state := st, actions := [],
            outcome := .panicked "old websocket stream could not close" }
        else if env.connectOk = false then
          { state := st, actions := [.wsClose], outcome := .panicked "could not connect" }
        else if env.wsSendOk then
          { state := st,
            actions := [.wsClose, .wsConnect (r.resume_gateway_url ++ urlSuffix),
              .wsSend (resumeMessage st.token r seq)],
            outcome := .next }
        else
          { state := st,
            actions := [.wsClose, .wsConnect (r.resume_gateway_url ++ urlSuffix)],
            outcome := .terminated .resumeSendFailed }
      | _, _ => { state := st, actions := [], outcome := .terminated .noResumeInfo }
    | .hello =>
      match decodeHello message.d with
      | some hi =>
          { state := { st with
              interval := ⟨env.now + env.randOffset, hi.heartbeat_interval⟩ },
            actions := [], outcome := .next }
      | none => { state := st, actions := [], outcome := .next }
    | .identify => { state := st, actions := [], outcome := .next }
    | .resume => { state := st, actions := [], outcome := .next }

/-- One iteration of the select loop in GatewayState::run. -/
def step (decInt : Json → Option Json) (env : Env) (st : GatewayState) :
    LoopInput → StepResult
  | .die => { state := st, actions := [], outcome := .terminated .manualClose }
  | .ackElapsed => { state := st, actions := [], outcome := .terminated .lostConnection }
  | .tick => st.heartbeat env
  | .frame .ended => { state := st, actions := [], outcome := .terminated .endOfStream }
  | .frame .fault => { state := st, actions := [], outcome := .terminated .endOfStream }
  | .frame (.item .close) =>
      { state := st, actions := [], outcome := .terminated .remoteClose }
  | .frame (.item .other) => { state := st, actions := [], outcome := .next }
  | .frame (.item (.text j)) => handleText decInt env st j

/-- The heartbeat-ack timeout branch of the select only exists while a
deadline is armed, and only fires once that deadline has elapsed. -/
def ackTimeoutEnabled (st : GatewayState) (env : Env) : Prop :=
  ∃ d, st.heartbeat_timeout = some d ∧ d ≤ env.now

/-- The loop input corresponding to receiving the encoding of an
envelope as a text frame. -/
def textInput (m : GatewayMessage Json) : LoopInput :=
  .frame (.item (.text (GatewayMessage.encode id m)))

/-- Iterating the loop over a list of inputs, each with its own
environment resolution, keeping only the resulting state. -/
def runSteps (decInt : Json → Option Json) : GatewayState → List (Env × LoopInput) → GatewayState
  | st, [] => st
  | st, (env, inp) :: rest => runSteps decInt (step decInt env st inp).state rest

/-- Error type of the request layer (enum RequestError in request.rs). -/
inductive RequestError where
  | authorization
  | network
  | rateLimited
  | clientError (status : Nat)
  | serverError
  | invalidSession
deriving DecidableEq, Repr

/-- Environment of one invocation of Gateway::connect: the outcome of the
REST discovery call (the url field of the response, or its error), whether
the websocket connection opens, the first message read from it (none
models a missing, failed or non-text first message, all of which panic in
the source), whether sending the Identify frame succeeds, the current
instant and the random jitter draw. -/
structure ConnectEnv where
  restResult : Except RequestError String
  connectOk : Bool
  helloFrame : Option Json
  identifySendOk : Bool
  now : Nat
  randOffset : Nat

/-- What a successful Gateway::connect produced: the URL the transport
was opened to, the Identify frame that was sent, and the state the
spawned session task starts from. -/
structure ConnectSuccess where
  url : String
  identifyFrame : Json
  initialState : GatewayState

/-- Result of Gateway::connect: a value returned with Ok, an error
returned with Err, or a panic from expect. -/
inductive ConnectResult where
  | ok (g : ConnectSuccess)
  | err (e : RequestError)
  | panicked (msg : String)

/-- The Identify payload (struct Identify and ConnectionProperties in
gateway.rs); name is the crate package name used for browser and device. -/
def identifyJson (name token : String) : Json :=
  .obj [("token", .str token), ("intents", .num 0),
    ("properties", .obj [("os", .str "linux"), ("browser", .str name),
      ("device", .str name)])]

/-- Gateway::connect: the REST discovery error propagates with the
question-mark operator; a transport that cannot open panics (expect);
a missing or undecodable Hello panics (expect); a failed Identify send
returns Err InvalidSession; otherwise the session state is built and
Ok is returned. -/
def connect (name : String) (cenv : ConnectEnv) (token : String) : ConnectResult :=
  match cenv.restResult with
  | .error e => .err e
  | .ok url =>
    if cenv.connectOk = false then .panicked "could not connect"
    else
      match cenv.helloFrame with
      | none => .panicked "no message"
      | some hj =>
        match GatewayMessage.decode decodeHello hj with
        | none => .panicked "unexpected message"
        | some msg =>
          if cenv.identifySendOk = false then .err .invalidSession
          else
            .ok
              { url := url ++ urlSuffix,
                identifyFrame :=
                  GatewayMessage.encode id ⟨.identify, identifyJson name token, none, none⟩,
                initialState :=
                  { interval := ⟨cenv.now + cenv.randOffset, msg.d.heartbeat_interval⟩,
                    heartbeat_timeout := none, ready := none, sequence := none,
                    token := token } }

/-- The two effects Gateway::close can perform, in order: sending on the
shutdown channel and awaiting the join handle of the session task. -/
inductive CloseAction where
  | signalStop
  | awaitTask
deriving DecidableEq, Repr

/-- Gateway::close: when the task has not already finished, send the
shutdown signal and then await the task before returning; otherwise do
nothing. -/
def gatewayClose (taskFinished : Bool) : List CloseAction :=
  if taskFinished then [] else [.signalStop, .awaitTask]

/-- The poll result of a stream. -/
inductive Poll (α : Type) where
  | ready (val : α)
  | pending

/-- The Stream implementation of Gateway (poll_next): the join handle of
the session task is polled first, and if the task has completed the
stream reports end of stream immediately; only otherwise is the bounded
event channel polled, delivering its first buffered event when one is
present and pending when the buffer is empty (the sender, held by the
still-running task, is alive). -/
def pollNext (taskFinished : Bool) (buffered : List GatewayEvent) :
    Poll (Option GatewayEvent) :=
  if taskFinished then .ready none
  else
    match buffered with
    | ev :: _ => .ready (some ev)
    | [] => .pending

theorem runSteps_append (decInt : Json → Option Json) (st : GatewayState)
    (l1 l2 : List (Env × LoopInput)) :
    runSteps decInt st (l1 ++ l2) = runSteps decInt (runSteps decInt st l1) l2 := by
  induction l1 generalizing st with
  | nil => rfl
  | cons p rest ih =>
    obtain ⟨env, inp⟩ := p
    simp [runSteps, ih]

theorem step_dispatch_state (decInt : Json → Option Json) (env : Env)
    (st : GatewayState) (m : GatewayMessage Json) (hop : m.op = .dispatch) :
    (step decInt env st (textInput m)).state.sequence = m.s := by
  have hdec : GatewayMessage.decode some (GatewayMessage.encode id m) = some m :=
    GatewayMessage.decode_encode id some (fun _ => rfl) m
  simp only [textInput, step, handleText, hdec, hop]
  cases hev : decodeEvent decInt (GatewayMessage.encode id m) with
  | none => simp [hev]
  | some ev =>
    cases ev with
    | ready r => simp [hev]
    | interactionCreate p => cases hcs : env.chanSendOk <;> simp [hev, hcs]

theorem decodeEvent_encode_ready (decInt : Json → Option Json)
    (m : GatewayMessage Json) (r : Ready) (ht : m.t = some "READY")
    (hr : decodeReady m.d = some r) :
    decodeEvent decInt (GatewayMessage.encode id m) = some (.ready r) := by
  rw [decodeEvent, lookup_encode_t id m, ht, lookup_encode_d id m]
  simp [hr]

theorem handleText_preserves_timeout (decInt : Json → Option Json) (env : Env)
    (st : GatewayState) (j : Json) (m : GatewayMessage Json)
    (hdec : GatewayMessage.decode some j = some m)
    (hop1 : m.op ≠ .heartbeat) (hop2 : m.op ≠ .heartbeatACK) :
    (handleText decInt env st j).state.heartbeat_timeout = st.heartbeat_timeout := by
  obtain ⟨op, d, s, t⟩ := m
  simp only [handleText, hdec]
  cases op with
  | dispatch =>
    cases hev : decodeEvent decInt j with
    | none => simp [hev]
    | some ev =>
      cases ev with
      | ready r => simp [hev]
      | interactionCreate p => cases hcs : env.chanSendOk <;> simp [hev, hcs]
  | heartbeat => exact absurd rfl hop1
  | identify => rfl
  | resume => rfl
  | reconnect =>
    cases hr : st.ready with
    | none => cases hs2 : st.sequence <;> simp [hr, hs2]
    | some r =>
      cases hs2 : st.sequence with
      | none => simp [hr, hs2]
      | some sq =>
        cases env.closeOk <;> cases env.connectOk <;> cases env.wsSendOk <;>
          simp [hr, hs2]
  | invalidSession => rfl
  | hello =>
    cases hh : decodeHello d with
    | none => simp [hh]
    | some hi => simp [hh]
  | heartbeatACK => exact absurd rfl hop2

theorem timeout_none_update_self (st : GatewayState) (h : st.heartbeat_timeout = none) :
    ({ st with heartbeat_timeout := none } : GatewayState) = st := by
  obtain ⟨i, ht, r, sq, tok⟩ := st
  cases ht with
  | none => rfl
  | some d => exact absurd h (by simp)

/-- Claim C1: in the Active loop, a Reconnect envelope received while a
captured Ready and a last seen sequence are available makes the machine
close the current transport, open a new transport to the captured
resume_gateway_url with the version and encoding suffix appended (and to
no other URL), and send a Resume envelope carrying the token, the
captured session_id and the last seen sequence; without credentials the
loop terminates instead. -/
theorem reconnect_resumes (decInt : Json → Option Json) (env : Env) (st : GatewayState)
    (m : GatewayMessage Json) (r : Ready) (seq : Nat)
    (hop : m.op = .reconnect) (hready : st.ready = some r) (hseq : st.sequence = some seq)
    (hclose : env.closeOk = true) (hconn : env.connectOk = true)
    (hsend : env.wsSendOk = true) :
    (step decInt env st (textInput m)).state = st ∧
    (step decInt env st (textInput m)).actions =
      [.wsClose, .wsConnect (r.resume_gateway_url ++ urlSuffix),
        .wsSend (resumeMessage st.token r seq)] ∧
    (step decInt env st (textInput m)).outcome = .next ∧
    (∀ url : String, Action.wsConnect url ∈ (step decInt env st (textInput m)).actions →
      url = r.resume_gateway_url ++ urlSuffix) ∧
    (∀ st2 : GatewayState, st2.ready = none ∨ st2.sequence = none →
      (step decInt env st2 (textInput m)).state = st2 ∧
      (step decInt env st2 (textInput m)).actions = [] ∧
      (step decInt env st2 (textInput m)).outcome = .terminated .noResumeInfo) := by
  have hdec : GatewayMessage.decode some (GatewayMessage.encode id m) = some m :=
    GatewayMessage.decode_encode id some (fun _ => rfl) m
  have hstep : step decInt env st (textInput m) =
      { state := st,
        actions := [.wsClose, .wsConnect (r.resume_gateway_url ++ urlSuffix),
          .wsSend (resumeMessage st.token r seq)],
        outcome := .next } := by
    simp only [textInput, step, handleText, hdec, hop, hready, hseq]
    simp [hclose, hconn, hsend]
  refine ⟨by rw [hstep], by rw [hstep], by rw [hstep], ?_, ?_⟩
  · intro url hmem
    rw [hstep] at hmem
    simp only [List.mem_cons, List.not_mem_nil, or_false] at hmem
    rcases hmem with h | h | h
    · exact absurd h (by simp)
    · exact (Action.wsConnect.injEq _ _).mp h
    · exact absurd h (by simp)
  · intro st2 h
    rcases h with h | h
    · refine ⟨?_, ?_, ?_⟩ <;>
        · simp only [textInput, step, handleText, hdec, hop]
          cases hs2 : st2.sequence <;> simp [h, hs2]
    · refine ⟨?_, ?_, ?_⟩ <;>
        · simp only [textInput, step, handleText, hdec, hop]
          cases hr2 : st2.ready <;> simp [h, hr2]

theorem reconnect_resumes_witness :
    (step (fun j => some j) ⟨0, true, true, true, true, 0⟩
        ⟨⟨0, 0⟩, none, some ⟨"wss://resume.example/x", "abc"⟩, some 2, "tok"⟩
        (textInput ⟨.reconnect, .null, none, none⟩)).actions =
      [.wsClose, .wsConnect ("wss://resume.example/x" ++ urlSuffix),
        .wsSend (resumeMessage "tok" ⟨"wss://resume.example/x", "abc"⟩ 2)] :=
  (reconnect_resumes (fun j => some j) ⟨0, true, true, true, true, 0⟩
    ⟨⟨0, 0⟩, none, some ⟨"wss://resume.example/x", "abc"⟩, some 2, "tok"⟩
    ⟨.reconnect, .null, none, none⟩ ⟨"wss://resume.example/x", "abc"⟩ 2
    rfl rfl rfl rfl rfl rfl).2.1

/-- Claim C2: after the loop processes a nonempty sequence of Dispatch
envelopes (written as an initial segment followed by the most recent
one), the stored sequence equals the s field of the most recently
processed envelope, unconditionally: the quantification covers the
intercepted Ready event, forwarded events, and events whose payload
fails to decode, since the payload, the event name and the opaque
interaction decoder are all arbitrary. -/
theorem dispatch_sequence_latest (decInt : Json → Option Json) (st : GatewayState)
    (frames : List (Env × GatewayMessage Json)) (p : Env × GatewayMessage Json)
    (hall : ∀ q ∈ frames ++ [p], q.2.op = .dispatch ∧ q.1.chanSendOk = true) :
    (runSteps decInt st ((frames ++ [p]).map fun q => (q.1, textInput q.2))).sequence
      = p.2.s := by
  rw [List.map_append, runSteps_append]
  have hp := (hall p (by simp)).1
  simp only [List.map_cons, List.map_nil, runSteps]
  exact step_dispatch_state decInt p.1 _ p.2 hp

theorem dispatch_sequence_latest_witness :
    (runSteps (fun j => some j) ⟨⟨0, 0⟩, none, none, none, "tok"⟩
        ((([(⟨0, true, true, true, true, 0⟩,
            ⟨.dispatch,
              .obj [("resume_gateway_url", .str "wss://r"), ("session_id", .str "abc")],
              some 1, some "READY"⟩)] ++
          [(⟨0, true, true, true, true, 0⟩,
            ⟨.dispatch, .null, some 2, some "INTERACTION_CREATE"⟩)] :
            List (Env × GatewayMessage Json)).map
          fun q => (q.1, textInput q.2)))).sequence = some 2 :=
  dispatch_sequence_latest (fun j => some j) ⟨⟨0, 0⟩, none, none, none, "tok"⟩
    [(⟨0, true, true, true, true, 0⟩,
      ⟨.dispatch,
        .obj [("resume_gateway_url", .str "wss://r"), ("session_id", .str "abc")],
        some 1, some "READY"⟩)]
    (⟨0, true, true, true, true, 0⟩,
      ⟨.dispatch, .null, some 2, some "INTERACTION_CREATE"⟩)
    (by decide)

/-- Claim C3: the pending heartbeat-ack deadline is a single optional
value, so at most one deadline is armed in any reachable state; sending a
heartbeat arms exactly one deadline, overwriting any previous one;
receiving a HeartbeatAck envelope clears the deadline; and receiving a
HeartbeatAck while no deadline is armed leaves the entire state
unchanged. -/
theorem heartbeat_ack_discipline (decInt : Json → Option Json) (env : Env)
    (st : GatewayState) (j : Json) (m : GatewayMessage Json)
    (hsend : env.wsSendOk = true)
    (hdec : GatewayMessage.decode some j = some m) (hop : m.op = .heartbeatACK) :
    (st.heartbeat env).state.heartbeat_timeout = some (env.now + 2000) ∧
    (step decInt env st (.frame (.item (.text j)))).state =
      { st with heartbeat_timeout := none } ∧
    (st.heartbeat_timeout = none →
      (step decInt env st (.frame (.item (.text j)))).state = st) := by
  have hst : (step decInt env st (.frame (.item (.text j)))).state =
      { st with heartbeat_timeout := none } := by
    simp only [step, handleText, hdec, hop]
  refine ⟨by simp [GatewayState.heartbeat, hsend], hst, fun hnone => ?_⟩
  rw [hst]
  exact timeout_none_update_self st hnone

theorem heartbeat_ack_discipline_witness :
    ((⟨⟨0, 0⟩, some 3, none, none, "tok"⟩ : GatewayState).heartbeat
        ⟨7, true, true, true, true, 0⟩).state.heartbeat_timeout = some (7 + 2000) ∧
    (step (fun j => some j) ⟨7, true, true, true, true, 0⟩
        ⟨⟨0, 0⟩, some 3, none, none, "tok"⟩
        (.frame (.item (.text (.obj [("op", .num 11), ("d", .null)]))))).state =
      { (⟨⟨0, 0⟩, some 3, none, none, "tok"⟩ : GatewayState) with
          heartbeat_timeout := none } ∧
    ((⟨⟨0, 0⟩, some 3, none, none, "tok"⟩ : GatewayState).heartbeat_timeout = none →
      (step (fun j => some j) ⟨7, true, true, true, true, 0⟩
          ⟨⟨0, 0⟩, some 3, none, none, "tok"⟩
          (.frame (.item (.text (.obj [("op", .num 11), ("d", .null)]))))).state =
        ⟨⟨0, 0⟩, some 3, none, none, "tok"⟩) :=
  heartbeat_ack_discipline (fun j => some j) ⟨7, true, true, true, true, 0⟩
    ⟨⟨0, 0⟩, some 3, none, none, "tok"⟩ (.obj [("op", .num 11), ("d", .null)])
    ⟨.heartbeatACK, .null, none, none⟩ rfl rfl rfl

/-- Claim C4: each heartbeat send arms the grace deadline at now plus
2000 milliseconds (two seconds); once that deadline is armed and has
elapsed, the corresponding select branch terminates the loop at the
lost-connection break; and no received envelope other than a Heartbeat
request or a HeartbeatAck ever changes the armed deadline, so the
timeout branch stays enabled regardless of other traffic. -/
theorem heartbeat_timeout_terminates (decInt : Json → Option Json) (env env2 : Env)
    (st st2 : GatewayState) (j : Json) (m : GatewayMessage Json)
    (hsend : env.wsSendOk = true)
    (_henabled : ackTimeoutEnabled st2 env2)
    (hdec : GatewayMessage.decode some j = some m)
    (hop1 : m.op ≠ .heartbeat) (hop2 : m.op ≠ .heartbeatACK) :
    (st.heartbeat env).state.heartbeat_timeout = some (env.now + 2000) ∧
    ((step decInt env2 st2 .ackElapsed).outcome = .terminated .lostConnection ∧
      (step decInt env2 st2 .ackElapsed).state = st2) ∧
    (step decInt env2 st2 (.frame (.item (.text j)))).state.heartbeat_timeout =
      st2.heartbeat_timeout := by
  refine ⟨by simp [GatewayState.heartbeat, hsend], ⟨rfl, rfl⟩, ?_⟩
  exact handleText_preserves_timeout decInt env2 st2 j m hdec hop1 hop2

theorem heartbeat_timeout_terminates_witness :
    ((⟨⟨0, 0⟩, none, none, none, "tok"⟩ : GatewayState).heartbeat
        ⟨0, true, true, true, true, 0⟩).state.heartbeat_timeout = some (0 + 2000) ∧
    ((step (fun j => some j) ⟨10, true, true, true, true, 0⟩
        ⟨⟨0, 0⟩, some 5, none, none, "tok"⟩ .ackElapsed).outcome =
          .terminated .lostConnection ∧
      (step (fun j => some j) ⟨10, true, true, true, true, 0⟩
        ⟨⟨0, 0⟩, some 5, none, none, "tok"⟩ .ackElapsed).state =
          ⟨⟨0, 0⟩, some 5, none, none, "tok"⟩) ∧
    (step (fun j => some j) ⟨10, true, true, true, true, 0⟩
        ⟨⟨0, 0⟩, some 5, none, none, "tok"⟩
        (.frame (.item (.text (.obj [("op", .num 0), ("d", .null),
          ("s", .num 3)]))))).state.heartbeat_timeout =
      (⟨⟨0, 0⟩, some 5, none, none, "tok"⟩ : GatewayState).heartbeat_timeout :=
  heartbeat_timeout_terminates (fun j => some j) ⟨0, true, true, true, true, 0⟩
    ⟨10, true, true, true, true, 0⟩ ⟨⟨0, 0⟩, none, none, none, "tok"⟩
    ⟨⟨0, 0⟩, some 5, none, none, "tok"⟩
    (.obj [("op", .num 0), ("d", .null), ("s", .num 3)])
    ⟨.dispatch, .null, some 3, none⟩ rfl ⟨5, rfl, by decide⟩ rfl
    (by decide) (by decide)

/-- Claim C5: a Dispatch envelope whose event decodes to the Ready
variant has its payload captured into the state (the Ready field holding
resume_gateway_url and session_id), forwards nothing downstream, keeps
the loop running, and still updates the stored sequence from the
envelope. -/
theorem ready_intercepted (decInt : Json → Option Json) (env : Env) (st : GatewayState)
    (m : GatewayMessage Json) (r : Ready)
    (hop : m.op = .dispatch) (ht : m.t = some "READY")
    (hr : decodeReady m.d = some r) :
    (step decInt env st (textInput m)).state =
      { st with sequence := m.s, ready := some r } ∧
    (step decInt env st (textInput m)).actions = [] ∧
    (step decInt env st (textInput m)).outcome = .next := by
  have hdec : GatewayMessage.decode some (GatewayMessage.encode id m) = some m :=
    GatewayMessage.decode_encode id some (fun _ => rfl) m
  have hev := decodeEvent_encode_ready decInt m r ht hr
  refine ⟨?_, ?_, ?_⟩ <;> simp [textInput, step, handleText, hdec, hop, hev]

theorem ready_intercepted_witness :
    (step (fun j => some j) ⟨0, true, true, true, true, 0⟩
        ⟨⟨0, 0⟩, none, none, none, "tok"⟩
        (textInput ⟨.dispatch,
          .obj [("resume_gateway_url", .str "wss://r"), ("session_id", .str "abc")],
          some 1, some "READY"⟩)).state =
      { (⟨⟨0, 0⟩, none, none, none, "tok"⟩ : GatewayState) with
          sequence := some 1, ready := some ⟨"wss://r", "abc"⟩ } ∧
    (step (fun j => some j) ⟨0, true, true, true, true, 0⟩
        ⟨⟨0, 0⟩, none, none, none, "tok"⟩
        (textInput ⟨.dispatch,
          .obj [("resume_gateway_url", .str "wss://r"), ("session_id", .str "abc")],
          some 1, some "READY"⟩)).actions = [] ∧
    (step (fun j => some j) ⟨0, true, true, true, true, 0⟩
        ⟨⟨0, 0⟩, none, none, none, "tok"⟩
        (textInput ⟨.dispatch,
          .obj [("resume_gateway_url", .str "wss://r"), ("session_id", .str "abc")],
          some 1, some "READY"⟩)).outcome = .next :=
  ready_intercepted (fun j => some j) ⟨0, true, true, true, true, 0⟩
    ⟨⟨0, 0⟩, none, none, none, "tok"⟩
    ⟨.dispatch,
      .obj [("resume_gateway_url", .str "wss://r"), ("session_id", .str "abc")],
      some 1, some "READY"⟩
    ⟨"wss://r", "abc"⟩ rfl rfl rfl

/-- Claim C6 counterexample: a text frame that does not decode as an
envelope makes the session loop panic at the unwrap on the envelope
decode, an uncontrolled task failure; it is not a controlled terminal
break for any break reason. -/
theorem malformed_frame_panics_cex :
    (step (fun j => some j) ⟨0, true, true, true, true, 0⟩
        ⟨⟨0, 0⟩, none, none, none, "tok"⟩
        (.frame (.item (.text (.str "garbage"))))).outcome =
      .panicked "invalid gateway message" ∧
    ∀ reason : BreakReason,
      (step (fun j => some j) ⟨0, true, true, true, true, 0⟩
          ⟨⟨0, 0⟩, none, none, none, "tok"⟩
          (.frame (.item (.text (.str "garbage"))))).outcome ≠
        .terminated reason :=
  ⟨rfl, fun _ h => Outcome.noConfusion h⟩

/-- Claim C6 amended: transport-level read failures terminate the loop in
a controlled way (end of stream and a read error break at the
end-of-stream point, a close frame breaks at the remote-close point), but
a received text frame that cannot be decoded as a valid envelope panics
the task through unwrap, an uncontrolled failure, rather than performing
a controlled terminal transition. -/
theorem frame_error_handling (decInt : Json → Option Json) (env : Env)
    (st : GatewayState) (j : Json)
    (hbad : GatewayMessage.decode some j = none) :
    (step decInt env st (.frame .ended)).outcome = .terminated .endOfStream ∧
    (step decInt env st (.frame .fault)).outcome = .terminated .endOfStream ∧
    (step decInt env st (.frame (.item .close))).outcome = .terminated .remoteClose ∧
    (step decInt env st (.frame (.item (.text j)))).outcome =
      .panicked "invalid gateway message" := by
  refine ⟨rfl, rfl, rfl, ?_⟩
  simp [step, handleText, hbad]

theorem frame_error_handling_witness :
    (step (fun j => some j) ⟨0, true, true, true, true, 0⟩
        ⟨⟨0, 0⟩, none, none, none, "tok"⟩ (.frame .ended)).outcome =
      .terminated .endOfStream ∧
    (step (fun j => some j) ⟨0, true, true, true, true, 0⟩
        ⟨⟨0, 0⟩, none, none, none, "tok"⟩ (.frame .fault)).outcome =
      .terminated .endOfStream ∧
    (step (fun j => some j) ⟨0, true, true, true, true, 0⟩
        ⟨⟨0, 0⟩, none, none, none, "tok"⟩ (.frame (.item .close))).outcome =
      .terminated .remoteClose ∧
    (step (fun j => some j) ⟨0, true, true, true, true, 0⟩
        ⟨⟨0, 0⟩, none, none, none, "tok"⟩
        (.frame (.item (.text (.str "garbage2"))))).outcome =
      .panicked "invalid gateway message" :=
  frame_error_handling (fun j => some j) ⟨0, true, true, true, true, 0⟩
    ⟨⟨0, 0⟩, none, none, none, "tok"⟩ (.str "garbage2") rfl

/-- Claim C7 counterexample: when the REST discovery succeeds but the
transport cannot open, connect panics at the expect on connect rather
than returning an error value to the caller. -/
theorem connect_transport_panic_cex :
    connect "discord" ⟨.ok "wss://gw.example", false, none, true, 0, 0⟩ "tok" =
      .panicked "could not connect" ∧
    ∀ e : RequestError,
      connect "discord" ⟨.ok "wss://gw.example", false, none, true, 0, 0⟩ "tok" ≠
        .err e :=
  ⟨rfl, fun _ h => ConnectResult.noConfusion h⟩

/-- Claim C7 amended: a failing REST discovery call returns its error
synchronously, and a failing Identify send returns the InvalidSession
error synchronously; but a transport that cannot open panics (as does a
missing or undecodable Hello) instead of returning an error; when
everything succeeds, connect returns the handle data after the Hello was
received and the Identify frame was sent, with the discovery URL suffixed
by the version and encoding query. -/
theorem connect_error_paths (name token url : String) (hj : Json)
    (hm : GatewayMessage Hello) (cenv : ConnectEnv) (e : RequestError)
    (now off : Nat)
    (hdec : GatewayMessage.decode decodeHello hj = some hm) :
    connect name { cenv with restResult := .error e } token = .err e ∧
    connect name ⟨.ok url, true, some hj, false, now, off⟩ token =
      .err .invalidSession ∧
    connect name ⟨.ok url, false, cenv.helloFrame, cenv.identifySendOk, now, off⟩
      token = .panicked "could not connect" ∧
    connect name ⟨.ok url, true, some hj, true, now, off⟩ token =
      .ok
        { url := url ++ urlSuffix,
          identifyFrame :=
            GatewayMessage.encode id ⟨.identify, identifyJson name token, none, none⟩,
          initialState :=
            { interval := ⟨now + off, hm.d.heartbeat_interval⟩,
              heartbeat_timeout := none, ready := none, sequence := none,
              token := token } } := by
  refine ⟨by simp [connect], ?_, rfl, ?_⟩
  · simp [connect, hdec]
  · simp [connect, hdec]

theorem connect_error_paths_witness :
    connect "discord"
        { (⟨.ok "wss://gw.example", true, none, true, 3, 1⟩ : ConnectEnv) with
            restResult := .error .network } "tok" = .err .network ∧
    connect "discord"
        ⟨.ok "wss://gw.example", true,
          some (.obj [("op", .num 10),
            ("d", .obj [("heartbeat_interval", .num 45000)])]), false, 3, 1⟩
        "tok" = .err .invalidSession ∧
    connect "discord"
        ⟨.ok "wss://gw.example", false,
          (⟨.ok "wss://gw.example", true, none, true, 3, 1⟩ : ConnectEnv).helloFrame,
          (⟨.ok "wss://gw.example", true, none, true, 3, 1⟩ : ConnectEnv).identifySendOk,
          3, 1⟩
        "tok" = .panicked "could not connect" ∧
    connect "discord"
        ⟨.ok "wss://gw.example", true,
          some (.obj [("op", .num 10),
            ("d", .obj [("heartbeat_interval", .num 45000)])]), true, 3, 1⟩
        "tok" =
      .ok
        { url := "wss://gw.example" ++ urlSuffix,
          identifyFrame :=
            GatewayMessage.encode id
              ⟨.identify, identifyJson "discord" "tok", none, none⟩,
          initialState :=
            { interval := ⟨3 + 1, 45000⟩,
              heartbeat_timeout := none, ready := none, sequence := none,
              token := "tok" } } :=
  connect_error_paths "discord" "tok" "wss://gw.example"
    (.obj [("op", .num 10), ("d", .obj [("heartbeat_interval", .num 45000)])])
    ⟨.hello, ⟨45000⟩, none, none⟩
    ⟨.ok "wss://gw.example", true, none, true, 3, 1⟩ .network 3 1 rfl

/-- Claim C8 counterexample: the shutdown path never performs the
transport close handshake.  Gateway::close only signals the stop channel
and awaits the task, and the session loop, on observing the stop signal,
breaks with no transport action at all: in particular no close handshake
is performed before close returns. -/
theorem close_no_transport_close_cex :
    gatewayClose false = [.signalStop, .awaitTask] ∧
    (step (fun j => some j) ⟨0, true, true, true, true, 0⟩
        ⟨⟨0, 0⟩, none, none, none, "tok"⟩ .die).outcome =
      .terminated .manualClose ∧
    Action.wsClose ∉
      (step (fun j => some j) ⟨0, true, true, true, true, 0⟩
        ⟨⟨0, 0⟩, none, none, none, "tok"⟩ .die).actions := by
  refine ⟨rfl, rfl, fun h => ?_⟩
  simp [step] at h

/-- Claim C8 amended: close signals the session task to stop and then
waits for it to finish before returning (and does nothing when the task
has already finished), and the loop terminates on the stop signal with
state unchanged; but no transport close handshake is performed on this
path — the stop branch breaks with an empty action list, and the
transport is merely dropped with the state. -/
theorem close_signals_and_awaits (decInt : Json → Option Json) (env : Env)
    (st : GatewayState) :
    gatewayClose true = [] ∧
    gatewayClose false = [.signalStop, .awaitTask] ∧
    (step decInt env st .die).state = st ∧
    (step decInt env st .die).actions = [] ∧
    (step decInt env st .die).outcome = .terminated .manualClose :=
  ⟨rfl, rfl, rfl, rfl, rfl⟩

/-- Claim C10: once the session task has completed, polling the handle
returns end of stream immediately, even when forwarded events are still
buffered in the channel — such buffered events are never delivered; while
the task is running, a buffered event is delivered. -/
theorem task_done_ends_stream (ev : GatewayEvent) (buffered : List GatewayEvent) :
    pollNext true (ev :: buffered) = .ready none ∧
    pollNext false (ev :: buffered) = .ready (some ev) :=
  ⟨rfl, rfl⟩

end Gateway
